import Mathlib

/-
Verification of the concurrent session orchestrator of the
test-automation-payments repository.

The JavaScript sources are shallowly embedded:
* JS Map objects become association lists (List (String × α)) with the
  get / set / delete operations mirrored below;
* JS numbers that are used as counters become Int (so that the sign of a
  counter is a meaningful question) or Nat where only nonnegative values
  are produced by the source;
* async functions with awaits become either pure recursive functions (when
  the claim is about the eventual value) or an explicit small-step
  scheduler over task program counters (when the claim is about
  interleavings of the event loop);
* fallible operations return Except String.
-/

/-! ## Association-list model of a JS Map -/

/-- Model of JS Map.get: first binding of the key, if any. -/
def mGet {α : Type} : List (String × α) → String → Option α
  | [], _ => none
  | (k, v) :: rest, key => if k = key then some v else mGet rest key

/-- Model of JS Map.set: replace the binding of the key, or append it. -/
def mSet {α : Type} : List (String × α) → String → α → List (String × α)
  | [], key, val => [(key, val)]
  | (k, v) :: rest, key, val =>
      if k = key then (key, val) :: rest else (k, v) :: mSet rest key val

/-- Model of JS Map.delete: remove the binding of the key.  A JS Map never
holds two bindings of one key, so removing every binding of the key agrees
with the source on every reachable map. -/
def mDel {α : Type} (l : List (String × α)) (key : String) : List (String × α) :=
  l.filter (fun p => !(p.1 == key))

/-- Model of JS Map.has. -/
def mHas {α : Type} (l : List (String × α)) (key : String) : Bool :=
  (mGet l key).isSome

/-! ## Resource pool assignment (src/unnamed/part_006, BrowserSessionManager)

`_distributeSessions` (lines 34-48) assigns the session at position `index`
to the browser id `browser-${Math.floor(index / this.tabsPerBrowser)}` and
groups the session ids per browser id in a Map of lists.

`createSession` (lines 148-157) auto-assigns: it computes
`browserIndex = Math.floor(this.sessionCounter / this.tabsPerBrowser)` and
then increments `this.sessionCounter`. -/

/-- Browser id built by the template literal of part_006 line 38/152. -/
def mkBrowserId (idx : Nat) : String :=
  "browser-" ++ toString idx

/-- Push a session id onto the list held for a browser id, creating the
entry when absent (part_006 lines 40-44). -/
def distAdd (d : List (String × List String)) (key sid : String) :
    List (String × List String) :=
  match mGet d key with
  | some l => mSet d key (l ++ [sid])
  | none => mSet d key [sid]

/-- BrowserSessionManager._distributeSessions (part_006 lines 34-48).
Division by zero cannot occur in the source paths covered by the claims
(tabsPerBrowser is a positive configuration value). -/
def distributeSessions (sessionIds : List String) (tabsPerBrowser : Nat) :
    List (String × List String) :=
  sessionIds.enum.foldl
    (fun d p => distAdd d (mkBrowserId (p.1 / tabsPerBrowser)) p.2) []

/-- Auto-assignment step of BrowserSessionManager.createSession
(part_006 lines 150-154): the browser index for the current counter,
together with the incremented counter. -/
def createSessionAssign (sessionCounter tabsPerBrowser : Nat) : Nat × Nat :=
  (sessionCounter / tabsPerBrowser, sessionCounter + 1)

/-- Browser indices obtained by n successive auto-assigning calls of
createSession, starting from a given sessionCounter. -/
def autoAssignAll : Nat → Nat → Nat → List Nat
  | 0, _, _ => []
  | n + 1, counter, tabs =>
      let a := createSessionAssign counter tabs
      a.1 :: autoAssignAll n a.2 tabs

/-! ## Retry and backoff engine
(src/src/utils/korean-report-generator.js, ErrorHandler, lines 399-654)

`handleNetworkError(error, operation, retryFunction, maxRetries)` reads the
attempt counter of the operation key from `this.retryAttempts`; when the
counter has reached maxRetries it throws the final error; otherwise it
increments the counter, sleeps `min(1000 * 2 ** attempts, 10000)` ms, calls
the retry function, deletes the counter on success and recurses on failure.
The retry function is modelled as the sequence of outcomes of its
successive invocations; the sleep becomes an entry of the returned delay
list. -/

/-- ErrorHandler.handleNetworkError (lines 415-451).  Returns the list of
backoff delays that were slept, the final outcome, and the final
retryAttempts map. -/
def handleNetworkError (m : List (String × Nat)) (errMsg : String)
    (operation : String) (retryFn : Nat → Except String Unit)
    (callIdx maxRetries : Nat) :
    List Nat × Except String Unit × List (String × Nat) :=
  let currentAttempts := (mGet m operation).getD 0
  if h : maxRetries ≤ currentAttempts then
    ([], Except.error
      ("Network error in " ++ operation ++ " after " ++ toString maxRetries
        ++ " retries: " ++ errMsg), m)
  else
    let m1 := mSet m operation (currentAttempts + 1)
    let backoffDelay := min (1000 * 2 ^ currentAttempts) 10000
    match retryFn callIdx with
    | Except.ok _ => ([backoffDelay], Except.ok (), mDel m1 operation)
    | Except.error e =>
        let r := handleNetworkError m1 e operation retryFn (callIdx + 1) maxRetries
        (backoffDelay :: r.1, r.2.1, r.2.2)
termination_by maxRetries - (mGet m operation).getD 0
decreasing_by
  have hset : ∀ (l : List (String × Nat)) (k : String) (v : Nat),
      mGet (mSet l k v) k = some v := by
    intro l k v
    induction l with
    | nil => simp [mGet, mSet]
    | cons p rest ih =>
        by_cases hk : p.1 = k
        · simp [mGet, mSet, hk]
        · simpa [mGet, mSet, hk] using ih
  simp only [hset, Option.getD_some]
  omega

/-- ErrorHandler.resetRetryAttempts (lines 639-645) for a given operation. -/
def resetRetryAttempts (m : List (String × Nat)) (operation : String) :
    List (String × Nat) :=
  mDel m operation

/-! ## Live monitor (src/src/utils/concurrent-monitor.js, ConcurrentMonitor)

The monitor is an event sink: every method mutates the stats record and the
per-session map.  Counters are JS numbers mutated by increments and
decrements, modelled as Int so that nonnegativity is a real statement; the
running average wait time uses JS float division, modelled as Rat.  The
file/console output of the class (logEvent, printStatus, saveStats) and the
wall-clock timestamps carried in the session records are not observable by
any claim and are omitted. -/

/-- Substring test modelling the JS String.prototype.includes call. -/
def jsIncludes (s pat : String) : Bool :=
  (s.splitOn pat).length != 1

/-- ConcurrentMonitor.categorizeError (lines 259-272). -/
def categorizeError (errorMessage : String) : String :=
  if errorMessage = "" then "Unknown"
  else
    let msg := errorMessage.toLower
    if jsIncludes msg "timeout" then "Timeout"
    else if jsIncludes msg "waiting" || jsIncludes msg "queue" then "WaitingPage"
    else if jsIncludes msg "network" || jsIncludes msg "connection" then "Network"
    else if jsIncludes msg "element" || jsIncludes msg "selector" then "UIElement"
    else if jsIncludes msg "navigation" then "Navigation"
    else if jsIncludes msg "click" then "Click"
    else "Other"

/-- Status values taken by the per-session records of the monitor. -/
inductive SessionStatus
  | registered
  | running
  | completed
  | failed
deriving DecidableEq

/-- Per-session record tracked by ConcurrentMonitor (lines 116-125),
restricted to the fields any claim can observe.  The creation and step
timestamps are wall-clock values outside the model. -/
structure SessionRec where
  status : SessionStatus
  currentStep : String
  errors : List (String × String)
  waitingEncountered : Bool
  waitTime : Int
  queuePosition : Option Int
deriving DecidableEq

/-- Aggregate counters of ConcurrentMonitor (lines 17-34). -/
structure MonitorStats where
  total : Int
  running : Int
  completed : Int
  failed : Int
  waiting : Int
  stepStats : List (String × Int)
  errorsByStep : List (String × Int)
  errorsByType : List (String × Int)
  waitingPageEncounters : Int
  avgWaitTime : Rat
deriving DecidableEq

/-- Full monitor state: stats and the session map. -/
structure MonitorState where
  stats : MonitorStats
  sessions : List (String × SessionRec)
deriving DecidableEq

/-- Initial stats of the constructor (lines 17-34). -/
def monitorInitStats : MonitorStats :=
  { total := 0, running := 0, completed := 0, failed := 0, waiting := 0,
    stepStats :=
      [("step1-course", 0), ("step2-basic", 0), ("step3-detailed", 0),
       ("step4-class", 0), ("step5-payment", 0)],
    errorsByStep := [], errorsByType := [], waitingPageEncounters := 0,
    avgWaitTime := 0 }

/-- Initial monitor state. -/
def monitorInit : MonitorState :=
  { stats := monitorInitStats, sessions := [] }

/-- Increment of a counter entry, modelling
`obj[key] = (obj[key] || 0) + 1`. -/
def bumpCounter (l : List (String × Int)) (key : String) : List (String × Int) :=
  mSet l key ((mGet l key).getD 0 + 1)

/-- ConcurrentMonitor.registerSession (lines 115-129). -/
def registerSession (s : MonitorState) (sessionId : String) : MonitorState :=
  { stats := { s.stats with total := s.stats.total + 1 },
    sessions := mSet s.sessions sessionId
      { status := SessionStatus.registered, currentStep := "init", errors := [],
        waitingEncountered := false, waitTime := 0, queuePosition := none } }

/-- ConcurrentMonitor.startSession (lines 134-143). -/
def startSession (s : MonitorState) (sessionId : String) : MonitorState :=
  match mGet s.sessions sessionId with
  | none => s
  | some r =>
      { stats := { s.stats with running := s.stats.running + 1 },
        sessions := mSet s.sessions sessionId { r with status := SessionStatus.running } }

/-- ConcurrentMonitor.updateSessionStep (lines 148-158). -/
def updateSessionStep (s : MonitorState) (sessionId step : String) : MonitorState :=
  match mGet s.sessions sessionId with
  | none => s
  | some r =>
      { stats := { s.stats with stepStats := bumpCounter s.stats.stepStats step },
        sessions := mSet s.sessions sessionId { r with currentStep := step } }

/-- ConcurrentMonitor.recordWaitingPage (lines 163-182). -/
def recordWaitingPage (s : MonitorState) (sessionId : String)
    (waitTime queuePosition : Int) : MonitorState :=
  match mGet s.sessions sessionId with
  | none => s
  | some r =>
      let enc := s.stats.waitingPageEncounters + 1
      { stats := { s.stats with
          waiting := s.stats.waiting + 1,
          waitingPageEncounters := enc,
          avgWaitTime :=
            (s.stats.avgWaitTime * ((enc : Rat) - 1) + (waitTime : Rat)) / (enc : Rat) },
        sessions := mSet s.sessions sessionId
          { r with waitingEncountered := true, waitTime := waitTime,
                   queuePosition := some queuePosition } }

/-- ConcurrentMonitor.recordWaitingPagePassed (lines 187-194). -/
def recordWaitingPagePassed (s : MonitorState) (sessionId : String) : MonitorState :=
  match mGet s.sessions sessionId with
  | none => s
  | some r =>
      if r.waitingEncountered then
        { s with stats := { s.stats with waiting := max 0 (s.stats.waiting - 1) } }
      else s

/-- ConcurrentMonitor.completeSession (lines 199-226).  The duration and
result payload copied into the record are not observable by any claim. -/
def completeSession (s : MonitorState) (sessionId : String) (success : Bool) :
    MonitorState :=
  match mGet s.sessions sessionId with
  | none => s
  | some r =>
      { stats := { s.stats with
          running := max 0 (s.stats.running - 1),
          completed := if success then s.stats.completed + 1 else s.stats.completed,
          failed := if success then s.stats.failed else s.stats.failed + 1 },
        sessions := mSet s.sessions sessionId
          { r with status :=
              if success then SessionStatus.completed else SessionStatus.failed } }

/-- ConcurrentMonitor.recordError (lines 231-254). -/
def recordError (s : MonitorState) (sessionId step errMsg : String) : MonitorState :=
  match mGet s.sessions sessionId with
  | none => s
  | some r =>
      { stats := { s.stats with
          errorsByStep := bumpCounter s.stats.errorsByStep step,
          errorsByType := bumpCounter s.stats.errorsByType (categorizeError errMsg) },
        sessions := mSet s.sessions sessionId
          { r with errors := r.errors ++ [(step, errMsg)] } }

/-- Events accepted by the monitor. -/
inductive MEvent
  | register (id : String)
  | start (id : String)
  | updateStep (id step : String)
  | waitingPage (id : String) (waitTime queuePos : Int)
  | waitingPassed (id : String)
  | complete (id : String) (success : Bool)
  | errorEvent (id step msg : String)
deriving DecidableEq

/-- Dispatch of one monitor event. -/
def monitorStep (s : MonitorState) : MEvent → MonitorState
  | MEvent.register id => registerSession s id
  | MEvent.start id => startSession s id
  | MEvent.updateStep id step => updateSessionStep s id step
  | MEvent.waitingPage id w q => recordWaitingPage s id w q
  | MEvent.waitingPassed id => recordWaitingPagePassed s id
  | MEvent.complete id ok => completeSession s id ok
  | MEvent.errorEvent id step msg => recordError s id step msg

/-- Monitor state after a sequence of events. -/
def monitorRun (events : List MEvent) : MonitorState :=
  events.foldl monitorStep monitorInit

/-- Ids of the register events of a trace. -/
def registerIds (events : List MEvent) : List String :=
  events.filterMap (fun e => match e with | MEvent.register id => some id | _ => none)

/-- Ids of the completeSession events of a trace. -/
def completeIds (events : List MEvent) : List String :=
  events.filterMap (fun e => match e with | MEvent.complete id _ => some id | _ => none)

/-! ## Batch scheduler (src/src/core/test-executor.js, TestExecutor.executeMulti)

The loop (lines 76-116) computes `batchSize = Math.min(concurrency, count)`
once, and while `completed < count && this.isRunning` builds the wave of
sessions `completed .. min(completed + batchSize, count) - 1`, starts them
all, joins them with Promise.allSettled, pushes one result per session
(the fulfilled value, or a `{success:false, error:message}` record for a
rejected promise, lines 97-110), and advances `completed`.

The outcome of the session promise at index i is an input of the model
(`outcome i`); `running k` is the value of the cooperative `this.isRunning`
flag at the k-th loop check (it is only ever read there; `stop()` at line
318-321 just assigns false to it).  The JS loop would spin forever with
`concurrency = 0`; the model returns the empty list in that unreachable
configuration. -/

/-- Settled result record for one session: the fulfilled value, or the
failure record built at lines 104-108 for a rejected promise (whose
`totalTime` field is absent, hence excluded by every `totalTime > 0`
filter; it is modelled as 0). -/
structure SessResult where
  success : Bool
  totalTime : Nat
  errMsg : Option String
deriving DecidableEq

/-- Collection of one settled promise (lines 97-110). -/
def settle (o : Except String SessResult) : SessResult :=
  match o with
  | Except.ok v => v
  | Except.error m => { success := false, totalTime := 0, errMsg := some m }

/-- Wave decomposition of TestExecutor.executeMulti: the list of waves of
settled session results. -/
def executeMultiWaves (outcome : Nat → Except String SessResult)
    (isRun : Nat → Bool) (count batchSize completed : Nat) :
    List (List SessResult) :=
  if h : completed < count ∧ isRun 0 = true ∧ 0 < batchSize then
    let batchEnd := min (completed + batchSize) count
    ((List.range' completed (batchEnd - completed)).map (fun i => settle (outcome i)))
      :: executeMultiWaves outcome (fun k => isRun (k + 1)) count batchSize batchEnd
  else []
termination_by count - completed
decreasing_by
  obtain ⟨h1, h2, h3⟩ := h
  omega

/-- Flat result list of TestExecutor.executeMulti: `this.results` after the
loop, for requested count and concurrency. -/
def executeMultiResults (outcome : Nat → Except String SessResult)
    (isRun : Nat → Bool) (count concurrency : Nat) : List SessResult :=
  (executeMultiWaves outcome isRun count (min concurrency count) 0).flatten

/-- Summary record of TestExecutor._createSummary (lines 276-294). -/
structure Summary where
  total : Nat
  successful : Nat
  failed : Nat
  successRate : Rat
  avgTime : Int
  minTime : Nat
  maxTime : Nat
deriving DecidableEq

/-- TestExecutor._createSummary (lines 276-294). -/
def createSummary (results : List SessResult) : Summary :=
  let total := results.length
  let successful := (results.filter (fun r => r.success)).length
  let failed := total - successful
  let times : List Nat :=
    (results.filter (fun r => 0 < r.totalTime)).map (fun r => r.totalTime)
  { total := total, successful := successful, failed := failed,
    successRate :=
      if 0 < total then
        ((round ((successful : Rat) / (total : Rat) * 100 * 100) : Rat)) / 100
      else 0,
    avgTime :=
      if 0 < times.length then round ((times.sum : Rat) / (times.length : Rat)) else 0,
    minTime := (times.min?).getD 0,
    maxTime := (times.max?).getD 0 }

/-- Wave sizes written from the words of the spec for the refinement
comparison: successive waves of size min(concurrency, remaining). -/
def specWaveSizes (total concurrency : Nat) : List Nat :=
  if h : 0 < total ∧ 0 < concurrency then
    min concurrency total :: specWaveSizes (total - min concurrency total) concurrency
  else []
termination_by total
decreasing_by
  obtain ⟨h1, h2⟩ := h
  omega

/-! ## Queue-wait state machine (src/unnamed/part_004, WaitingPage)

`waitForCompletion(maxWaitTime)` (lines 103-140) loops while
`Date.now() - startTime < maxWaitTime`: it checks `isWaitingPage()`,
returns true at once when the page is no longer waiting, otherwise reads
the waiting info, logs it through `this.logger` when it differs from the
previously logged info, and sleeps
`estimatedTime > 0 ? min(estimatedTime * 1000, 30000) : 5000` ms.  When the
loop guard fails it returns false.

The detector outcome and the waiting info of the n-th poll are inputs
(`isWaiting n`, `info n` = (waitingCount, estimatedTime)); the model clock
advances only by the sleeps, detection itself being sub-second by design.
The body never touches the ConcurrentMonitor: the WaitingPage constructor
(lines 6-27) receives only the page and the session id, and no call site
passes a monitor, so the list of observations delivered to the monitor is
structurally empty while the logger observations accumulate. -/

/-- Result of one run of WaitingPage.waitForCompletion: the returned flag,
the virtual elapsed time, the number of detector polls, the status
observations delivered to the ConcurrentMonitor (none in the source) and
the status observations written to the session logger (lines 119-123). -/
structure WaitRunResult where
  completed : Bool
  elapsed : Nat
  polls : Nat
  monitorObs : List (Nat × Nat)
  loggerObs : List (Nat × Nat)
deriving DecidableEq

/-- Loop of WaitingPage.waitForCompletion (lines 109-136). -/
def waitForCompletionLoop (isWaiting : Nat → Bool) (info : Nat → Nat × Nat)
    (maxWaitTime elapsed pollIdx : Nat) (lastInfo : Option (Nat × Nat))
    (logAcc : List (Nat × Nat)) : WaitRunResult :=
  if h : elapsed < maxWaitTime then
    if isWaiting pollIdx = false then
      { completed := true, elapsed := elapsed, polls := pollIdx + 1,
        monitorObs := [], loggerObs := logAcc }
    else
      let wi := info pollIdx
      let logAcc1 := if some wi ≠ lastInfo then logAcc ++ [wi] else logAcc
      let waitInterval := if 0 < wi.2 then min (wi.2 * 1000) 30000 else 5000
      waitForCompletionLoop isWaiting info maxWaitTime (elapsed + waitInterval)
        (pollIdx + 1) (some wi) logAcc1
  else
    { completed := false, elapsed := elapsed, polls := pollIdx,
      monitorObs := [], loggerObs := logAcc }
termination_by maxWaitTime - elapsed
decreasing_by
  split <;> omega

/-- WaitingPage.waitForCompletion (lines 103-140). -/
def waitForCompletion (isWaiting : Nat → Bool) (info : Nat → Nat × Nat)
    (maxWaitTime : Nat) : WaitRunResult :=
  waitForCompletionLoop isWaiting info maxWaitTime 0 0 none []

/-- FlowManager._handleWaitingPageIfPresent (src/src/core/flow-manager.js
lines 54-61): a false completion flag from the waiting page handler becomes
a thrown session-level error. -/
def handleWaitingPageGate (completedFlag : Bool) : Except String Unit :=
  if completedFlag then Except.ok ()
  else Except.error "Failed to pass through waiting page"

/-- Result record of FlowManager.executeFullFlow, restricted to the fields
the claims observe. -/
structure FlowResult where
  success : Bool
  errors : List (String × String)
deriving DecidableEq

/-- Catch-all of FlowManager.executeFullFlow (lines 66-99): any error
thrown by a step is caught, recorded, and turned into a returned result
with success = false; the function itself never throws. -/
def executeFullFlow (body : Except String Unit) : FlowResult :=
  match body with
  | Except.ok _ => { success := true, errors := [] }
  | Except.error m => { success := false, errors := [("flow-execution", m)] }

/-! ## Single-flight creation guards
(src/unnamed/part_006, BrowserSessionManager.startBrowser lines 53-92 and
BrowserSessionManager.getOrCreateSharedContext lines 105-143)

The JS event loop is modelled as a small-step scheduler.  Each task is one
call of getOrCreateSharedContext for a browser key, with a program counter
at its suspension points.  The code between two awaits runs atomically, as
on the real event loop:

* entry segment: `sharedContexts.has` check (line 107), then the
  `contextCreating.has` check (line 113, suspending on the in-flight guard
  promise when present), then the synchronous body of startBrowser (lines
  55-91: return a started browser, join an in-flight launch, or call
  chromium.launch and register it in browserStarting), and the suspension
  of `await this.startBrowser(browserId)` (line 120).  An await always
  yields at least one microtask turn, even on a settled promise.
* resumption after the browser await (lines 122-142): call
  browser.newContext — logged in newContextLog — then store the creating
  promise in contextCreating and hand that promise to the caller.
* the then/catch continuations of the launch and creation promises run
  when the scheduler settles the corresponding promise: a settled launch
  fills browsers and clears browserStarting (lines 79-88); a settled
  creation fills sharedContexts and clears the contextCreating entry of
  its key (lines 130-139).

A task whose awaited launch has disappeared from both browsers and
browserStarting observed the propagated launch failure. -/

/-- Program counter of one getOrCreateSharedContext task. -/
inductive TaskPC
  | entry
  | awaitBrowser
  | awaitCtx (ctxId : Nat)
  | done
  | failedPC
deriving DecidableEq

/-- One task: the key it requests and its current program counter. -/
structure SfTask where
  key : String
  pc : TaskPC
deriving DecidableEq

/-- Shared manager state plus the task pool.  launchLog records every
chromium.launch call, newContextLog every browser.newContext call (the
entry index of a creation is its promise id). -/
structure SfConfig where
  browsers : List String
  browserStarting : List String
  sharedContexts : List String
  contextCreating : List (String × Nat)
  resolvedCtxs : List Nat
  failedCtxs : List Nat
  launchLog : List String
  newContextLog : List String
  tasks : List SfTask
deriving DecidableEq

/-- Membership test on a list of keys. -/
def listHas (l : List String) (k : String) : Bool :=
  l.contains k

/-- Run the next atomic segment of task i, when one is enabled. -/
def sfRunTask (c : SfConfig) (i : Nat) : SfConfig :=
  match c.tasks.get? i with
  | none => c
  | some t =>
    match t.pc with
    | TaskPC.entry =>
        if listHas c.sharedContexts t.key then
          { c with tasks := c.tasks.set i { t with pc := TaskPC.done } }
        else
          match mGet c.contextCreating t.key with
          | some cid =>
              { c with tasks := c.tasks.set i { t with pc := TaskPC.awaitCtx cid } }
          | none =>
              if listHas c.browsers t.key || listHas c.browserStarting t.key then
                { c with tasks := c.tasks.set i { t with pc := TaskPC.awaitBrowser } }
              else
                { c with launchLog := c.launchLog ++ [t.key],
                         browserStarting := c.browserStarting ++ [t.key],
                         tasks := c.tasks.set i { t with pc := TaskPC.awaitBrowser } }
    | TaskPC.awaitBrowser =>
        if listHas c.browsers t.key then
          let cid := c.newContextLog.length
          { c with newContextLog := c.newContextLog ++ [t.key],
                   contextCreating := mSet c.contextCreating t.key cid,
                   tasks := c.tasks.set i { t with pc := TaskPC.awaitCtx cid } }
        else if listHas c.browserStarting t.key then c
        else { c with tasks := c.tasks.set i { t with pc := TaskPC.failedPC } }
    | TaskPC.awaitCtx cid =>
        if c.resolvedCtxs.contains cid then
          { c with tasks := c.tasks.set i { t with pc := TaskPC.done } }
        else if c.failedCtxs.contains cid then
          { c with tasks := c.tasks.set i { t with pc := TaskPC.failedPC } }
        else c
    | TaskPC.done => c
    | TaskPC.failedPC => c

/-- Settle a pending chromium.launch successfully: the then continuation of
lines 79-83 stores the browser and clears the browserStarting guard. -/
def sfResolveBrowser (c : SfConfig) (key : String) : SfConfig :=
  if listHas c.browserStarting key then
    { c with browsers := c.browsers ++ [key],
             browserStarting := c.browserStarting.filter (fun k => !(k == key)) }
  else c

/-- Settle a pending chromium.launch with a failure: the catch of lines
84-88 clears the browserStarting guard and rethrows to every waiter. -/
def sfFailBrowser (c : SfConfig) (key : String) : SfConfig :=
  { c with browserStarting := c.browserStarting.filter (fun k => !(k == key)) }

/-- Settle a pending browser.newContext successfully: the then continuation
of lines 130-134 stores the shared context and deletes the contextCreating
entry of its key. -/
def sfResolveCtx (c : SfConfig) (cid : Nat) : SfConfig :=
  if cid < c.newContextLog.length ∧ c.resolvedCtxs.contains cid = false ∧
      c.failedCtxs.contains cid = false then
    let key := c.newContextLog.getD cid ""
    { c with resolvedCtxs := c.resolvedCtxs ++ [cid],
             sharedContexts :=
               if listHas c.sharedContexts key then c.sharedContexts
               else c.sharedContexts ++ [key],
             contextCreating := mDel c.contextCreating key }
  else c

/-- Settle a pending browser.newContext with a failure: the catch of lines
135-139 deletes the contextCreating entry and rethrows to every waiter. -/
def sfFailCtx (c : SfConfig) (cid : Nat) : SfConfig :=
  if cid < c.newContextLog.length ∧ c.resolvedCtxs.contains cid = false ∧
      c.failedCtxs.contains cid = false then
    let key := c.newContextLog.getD cid ""
    { c with failedCtxs := c.failedCtxs ++ [cid],
             contextCreating := mDel c.contextCreating key }
  else c

/-- Scheduler actions: run a task segment or settle a pending promise. -/
inductive SfAction
  | runTask (i : Nat)
  | resolveBrowser (key : String)
  | failBrowser (key : String)
  | resolveCtx (cid : Nat)
  | failCtx (cid : Nat)
deriving DecidableEq

/-- One scheduler step. -/
def sfStep (c : SfConfig) : SfAction → SfConfig
  | SfAction.runTask i => sfRunTask c i
  | SfAction.resolveBrowser key => sfResolveBrowser c key
  | SfAction.failBrowser key => sfFailBrowser c key
  | SfAction.resolveCtx cid => sfResolveCtx c cid
  | SfAction.failCtx cid => sfFailCtx c cid

/-- Run a schedule. -/
def sfRun (c : SfConfig) (sched : List SfAction) : SfConfig :=
  sched.foldl sfStep c

/-- Fresh manager (constructor of part_006 lines 9-21) with a pool of
tasks all about to call getOrCreateSharedContext. -/
def sfInit (tasks : List SfTask) : SfConfig :=
  { browsers := [], browserStarting := [], sharedContexts := [],
    contextCreating := [], resolvedCtxs := [], failedCtxs := [],
    launchLog := [], newContextLog := [], tasks := tasks }

/-- Two concurrent getOrCreateSharedContext callers for the key browser-0
on a fresh manager. -/
def sfTwoTasks : SfConfig :=
  sfInit [{ key := "browser-0", pc := TaskPC.entry },
          { key := "browser-0", pc := TaskPC.entry }]

/-- Schedule produced by createMultipleSessions (part_006 lines 214-230),
which starts every session of one browser in parallel: both tasks run
their entry segment before the launch settles, then both resume. -/
def sfRaceSchedule : List SfAction :=
  [SfAction.runTask 0, SfAction.runTask 1,
   SfAction.resolveBrowser "browser-0",
   SfAction.runTask 0, SfAction.runTask 1]

/-! ## Helper lemmas about the map model -/

/-- Reading a map after a set. -/
theorem mGet_mSet {α : Type} (l : List (String × α)) (k key : String) (v : α) :
    mGet (mSet l k v) key = if k = key then some v else mGet l key := by
  induction l with
  | nil => by_cases h : k = key <;> simp [mGet, mSet, h]
  | cons p rest ih =>
      obtain ⟨pk, pv⟩ := p
      by_cases h1 : pk = k
      · by_cases h2 : k = key <;> simp [mGet, mSet, h1, h2]
      · by_cases h2 : pk = key
        · have h3 : ¬ k = key := by
            intro hk
            exact h1 (h2.trans hk.symm)
          have h4 : ¬ key = k := fun hk => h3 hk.symm
          simp [mGet, mSet, h1, h2, h3, h4]
        · simp [mGet, mSet, h1, h2, ih]

/-- Reading a map after a set of the same key. -/
theorem mGet_mSet_self {α : Type} (l : List (String × α)) (k : String) (v : α) :
    mGet (mSet l k v) k = some v := by
  simp [mGet_mSet]

/-- Reading a map after a delete of the same key. -/
theorem mGet_mDel_self {α : Type} (l : List (String × α)) (key : String) :
    mGet (mDel l key) key = none := by
  induction l with
  | nil => simp [mGet, mDel]
  | cons p rest ih =>
      obtain ⟨pk, pv⟩ := p
      by_cases h : pk = key
      · simpa [mDel, List.filter_cons, h] using ih
      · simpa [mGet, mDel, List.filter_cons, h] using ih

/-! ## C2: assignment policy of the resource pool -/

/-- Auto-assignment unfolds to a division over consecutive counters. -/
theorem autoAssignAll_eq_range : ∀ (n c tabs : Nat),
    autoAssignAll n c tabs = (List.range' c n).map (fun i => i / tabs) := by
  intro n
  induction n with
  | zero => intro c tabs; simp [autoAssignAll]
  | succ m ih =>
      intro c tabs
      simp [autoAssignAll, createSessionAssign, List.range'_succ, ih]

/-- Image of the division assignment: the browser indices used by sessions
0 .. N-1 are exactly 0 .. ceil(N / C) - 1. -/
theorem assignedIndices_toFinset (N C : Nat) (hC : 0 < C) :
    ((List.range N).map (fun i => i / C)).toFinset = Finset.range ((N + C - 1) / C) := by
  ext j
  simp only [List.mem_toFinset, List.mem_map, List.mem_range, Finset.mem_range]
  constructor
  · rintro ⟨i, hi, rfl⟩
    have hN : 1 ≤ N := by omega
    have h1 : i / C ≤ (N - 1) / C := Nat.div_le_div_right (by omega)
    have h2 : (N - 1 + C) / C = (N - 1) / C + 1 := Nat.add_div_right _ hC
    have h3 : N - 1 + C = N + C - 1 := by omega
    rw [h3] at h2
    omega
  · intro hj
    refine ⟨j * C, ?_, Nat.mul_div_cancel _ hC⟩
    have h2 : j * C + C ≤ (N + C - 1) / C * C := by
      have hstep : (j + 1) * C ≤ (N + C - 1) / C * C :=
        Nat.mul_le_mul_right C (by omega)
      calc j * C + C = (j + 1) * C := by ring
        _ ≤ (N + C - 1) / C * C := hstep
    have h3 : (N + C - 1) / C * C ≤ N + C - 1 := Nat.div_mul_le_self _ _
    omega

/-- C2: sessions are assigned to the browser instance with index
floor(sequence-number / capacity): the auto-assignment counter of
createSession yields index i / C for the i-th session, a run of N sessions
touches exactly ceil(N / C) distinct browser indices, and the concrete
shared-context scenario of six sessions with capacity five distributes
them as five sessions on browser-0 and one on browser-1. -/
theorem c2_assignment_policy :
    (∀ N C : Nat, 0 < C →
      autoAssignAll N 0 C = (List.range N).map (fun i => i / C) ∧
      ((List.range N).map (fun i => i / C)).dedup.length = (N + C - 1) / C) ∧
    distributeSessions ["s1", "s2", "s3", "s4", "s5", "s6"] 5 =
      [("browser-0", ["s1", "s2", "s3", "s4", "s5"]), ("browser-1", ["s6"])] ∧
    autoAssignAll 6 0 5 = [0, 0, 0, 0, 0, 1] := by
  refine ⟨fun N C hC => ⟨?_, ?_⟩, by decide, by decide⟩
  · rw [autoAssignAll_eq_range, List.range_eq_range']
  · rw [← List.card_toFinset, assignedIndices_toFinset N C hC, Finset.card_range]

/-- Witness for c2_assignment_policy at N = 6, C = 5. -/
theorem c2_assignment_policy_witness :
    0 < 5 ∧
    (autoAssignAll 6 0 5 = (List.range 6).map (fun i => i / 5) ∧
      ((List.range 6).map (fun i => i / 5)).dedup.length = (6 + 5 - 1) / 5) :=
  ⟨by decide, c2_assignment_policy.1 6 5 (by decide)⟩

/-! ## C3: retry and backoff engine -/

/-- A successful retry clears the stored attempt counter of the operation
key (line 446 of the source deletes the map entry, which reads back as 0). -/
theorem handleNetworkError_ok_clears :
    ∀ (m : List (String × Nat)) (errMsg operation : String)
      (retryFn : Nat → Except String Unit) (callIdx maxRetries : Nat),
      (handleNetworkError m errMsg operation retryFn callIdx maxRetries).2.1 =
        Except.ok () →
      mGet (handleNetworkError m errMsg operation retryFn callIdx maxRetries).2.2
        operation = none := by
  intro m errMsg operation retryFn callIdx maxRetries
  induction m, errMsg, operation, retryFn, callIdx, maxRetries
    using handleNetworkError.induct with
  | case1 m errMsg operation retryFn callIdx maxRetries cur hle =>
      intro h
      rw [handleNetworkError, dif_pos hle] at h
      simp at h
  | case2 m errMsg operation retryFn callIdx maxRetries cur hlt a hok =>
      intro _
      rw [handleNetworkError, dif_neg hlt, hok]
      simp [mGet_mDel_self]
  | case3 m errMsg operation retryFn callIdx maxRetries cur hlt m1 e herr ih =>
      intro h
      rw [handleNetworkError, dif_neg hlt, herr] at h ⊢
      simp only [] at h ⊢
      exact ih h

/-- The first backoff delay of a run that starts with a cleared counter is
1000 ms. -/
theorem handleNetworkError_first_delay (m : List (String × Nat))
    (errMsg operation : String) (retryFn : Nat → Except String Unit)
    (callIdx maxRetries : Nat) (h0 : mGet m operation = none)
    (hpos : 0 < maxRetries) :
    (handleNetworkError m errMsg operation retryFn callIdx maxRetries).1.head? =
      some 1000 := by
  rw [handleNetworkError]
  simp only [h0, Option.getD_none]
  rw [dif_neg (by omega)]
  cases hr : retryFn callIdx <;> simp [hr]

/-- C3: with maxRetries = 3, an operation failing on every attempt is
retried exactly three times with delays 1000 ms, 2000 ms and 4000 ms
(min(1000 * 2 ^ attempts, 10000)), then the final error embedding the
operation name and the retry count is raised; any successful attempt
removes the stored attempt counter of the operation key, so a later
failure of the same operation starts again with the 1000 ms delay. -/
theorem c3_retry_backoff :
    (∀ operation failMsg firstMsg : String,
      handleNetworkError [] firstMsg operation
        (fun _ => Except.error failMsg) 0 3 =
        ([1000, 2000, 4000],
         Except.error ("Network error in " ++ operation ++ " after "
           ++ toString 3 ++ " retries: " ++ failMsg),
         [(operation, 3)])) ∧
    (∀ (m : List (String × Nat)) (errMsg operation : String)
        (retryFn : Nat → Except String Unit) (callIdx maxRetries : Nat),
      (handleNetworkError m errMsg operation retryFn callIdx maxRetries).2.1 =
        Except.ok () →
      mGet (handleNetworkError m errMsg operation retryFn callIdx maxRetries).2.2
        operation = none) ∧
    (∀ (m : List (String × Nat)) (errMsg operation : String)
        (retryFn : Nat → Except String Unit) (callIdx maxRetries : Nat),
      mGet m operation = none → 0 < maxRetries →
      (handleNetworkError m errMsg operation retryFn callIdx maxRetries).1.head? =
        some 1000) := by
  refine ⟨fun operation failMsg firstMsg => ?_, handleNetworkError_ok_clears,
    fun m errMsg operation retryFn callIdx maxRetries h0 hpos =>
      handleNetworkError_first_delay m errMsg operation retryFn callIdx maxRetries h0 hpos⟩
  simp [handleNetworkError, mGet_mSet_self, mGet, mSet, mDel]

/-- Witness for c3_retry_backoff: a concrete failing run, a concrete
successful run whose counter is cleared, and the restart delay. -/
theorem c3_retry_backoff_witness :
    handleNetworkError [] "m0" "nav" (fun _ => Except.error "down") 0 3 =
      ([1000, 2000, 4000],
       Except.error ("Network error in " ++ "nav" ++ " after "
         ++ toString 3 ++ " retries: " ++ "down"),
       [("nav", 3)]) ∧
    ((handleNetworkError [] "m0" "nav"
        (fun k => if k = 1 then Except.ok () else Except.error "down") 0 3).2.1 =
      Except.ok () ∧
     mGet (handleNetworkError [] "m0" "nav"
        (fun k => if k = 1 then Except.ok () else Except.error "down") 0 3).2.2
        "nav" = none) ∧
    (mGet ([] : List (String × Nat)) "nav" = none ∧ 0 < 3 ∧
     (handleNetworkError [] "m1" "nav" (fun _ => Except.error "down") 0 3).1.head? =
       some 1000) :=
  ⟨c3_retry_backoff.1 "nav" "down" "m0",
   ⟨by simp [handleNetworkError, mGet_mSet_self, mGet, mSet, mDel],
    c3_retry_backoff.2.1 [] "m0" "nav"
      (fun k => if k = 1 then Except.ok () else Except.error "down") 0 3
      (by simp [handleNetworkError, mGet_mSet_self, mGet, mSet, mDel])⟩,
   ⟨by decide, by decide,
    c3_retry_backoff.2.2 [] "m1" "nav" (fun _ => Except.error "down") 0 3
      (by decide) (by decide)⟩⟩

/-! ## C4, C6, C7: wave scheduler -/

/-- Length projection of createSummary. -/
theorem createSummary_total (results : List SessResult) :
    (createSummary results).total = results.length := by
  simp [createSummary]

/-- With the run flag always true, the collected results are exactly one
settled entry per session index, in order. -/
theorem executeMultiWaves_flatten_true :
    ∀ (fuel count batchSize completed : Nat)
      (outcome : Nat → Except String SessResult) (isRun : Nat → Bool),
      count - completed ≤ fuel → 0 < batchSize → (∀ k, isRun k = true) →
      (executeMultiWaves outcome isRun count batchSize completed).flatten =
        (List.range' completed (count - completed)).map (fun i => settle (outcome i)) := by
  intro fuel
  induction fuel with
  | zero =>
      intro count batchSize completed outcome isRun hf hb hr
      rw [executeMultiWaves, dif_neg (by omega)]
      rw [show count - completed = 0 by omega]
      simp
  | succ n ih =>
      intro count batchSize completed outcome isRun hf hb hr
      by_cases hc : completed < count
      · rw [executeMultiWaves, dif_pos ⟨hc, hr 0, hb⟩]
        rw [List.flatten_cons]
        rw [ih count batchSize (min (completed + batchSize) count) outcome _
          (by omega) hb (fun k => hr (k + 1))]
        rw [← List.map_append]
        congr 1
        have h := List.range'_append completed
          (min (completed + batchSize) count - completed)
          (count - min (completed + batchSize) count) 1
        simp only [one_mul] at h
        rw [show completed + (min (completed + batchSize) count - completed) =
          min (completed + batchSize) count by omega] at h
        rw [show count - min (completed + batchSize) count +
          (min (completed + batchSize) count - completed) = count - completed by omega] at h
        exact h
      · rw [executeMultiWaves, dif_neg (by omega)]
        rw [show count - completed = 0 by omega]
        simp

/-- The wave sizes of the loop refine the wave sizes written from the
words of the spec. -/
theorem executeMultiWaves_sizes :
    ∀ (fuel count concurrency completed : Nat)
      (outcome : Nat → Except String SessResult) (isRun : Nat → Bool),
      count - completed ≤ fuel → 0 < concurrency → (∀ k, isRun k = true) →
      (executeMultiWaves outcome isRun count (min concurrency count) completed).map
          List.length = specWaveSizes (count - completed) concurrency := by
  intro fuel
  induction fuel with
  | zero =>
      intro count concurrency completed outcome isRun hf hco hr
      rw [executeMultiWaves, dif_neg (by omega)]
      rw [specWaveSizes, dif_neg (by omega)]
      simp
  | succ n ih =>
      intro count concurrency completed outcome isRun hf hco hr
      by_cases hc : completed < count
      · have hb : 0 < min concurrency count := by omega
        rw [executeMultiWaves, dif_pos ⟨hc, hr 0, hb⟩]
        rw [specWaveSizes, dif_pos ⟨by omega, hco⟩]
        simp only [List.map_cons]
        congr 1
        · simp only [List.length_map, List.length_range']
          omega
        · rw [ih count concurrency (min (completed + min concurrency count) count)
            outcome _ (by omega) hco (fun k => hr (k + 1))]
          congr 1
          omega
      · rw [executeMultiWaves, dif_neg (by omega)]
        rw [specWaveSizes, dif_neg (by omega)]
        simp

/-- With the run flag observed true at exactly the first K loop checks,
the collected results are one settled entry per started session. -/
theorem executeMultiWaves_flatten_stop :
    ∀ (K count batchSize completed : Nat)
      (outcome : Nat → Except String SessResult) (isRun : Nat → Bool),
      0 < batchSize → (∀ k, isRun k = true ↔ k < K) →
      (executeMultiWaves outcome isRun count batchSize completed).flatten =
        (List.range' completed (min (K * batchSize) (count - completed))).map
          (fun i => settle (outcome i)) := by
  intro K
  induction K with
  | zero =>
      intro count batchSize completed outcome isRun hb hr
      rw [executeMultiWaves,
        dif_neg (fun hcond => by simpa using (hr 0).mp hcond.2.1)]
      simp
  | succ n ih =>
      intro count batchSize completed outcome isRun hb hr
      by_cases hc : completed < count
      · have h0 : isRun 0 = true := (hr 0).mpr (by omega)
        rw [executeMultiWaves, dif_pos ⟨hc, h0, hb⟩]
        rw [List.flatten_cons]
        rw [ih count batchSize (min (completed + batchSize) count) outcome _
          hb (fun k => by
            have := hr (k + 1)
            constructor
            · intro hk
              have := this.mp hk
              omega
            · intro hk
              exact this.mpr (by omega))]
        rw [← List.map_append]
        congr 1
        have h := List.range'_append completed
          (min (completed + batchSize) count - completed)
          (min (n * batchSize) (count - min (completed + batchSize) count)) 1
        simp only [one_mul] at h
        rw [show completed + (min (completed + batchSize) count - completed) =
          min (completed + batchSize) count by omega] at h
        rw [h]
        congr 1
        rw [Nat.succ_mul]
        have hnb : 0 ≤ n * batchSize := Nat.zero_le _
        generalize n * batchSize = nb at *
        omega
      · rw [executeMultiWaves, dif_neg (by omega)]
        rw [show count - completed = 0 by omega]
        simp

/-- Results of a run that is never stopped: one settled entry per session
index, in order. -/
theorem executeMultiResults_true (outcome : Nat → Except String SessResult)
    (count concurrency : Nat) (hco : 0 < concurrency) :
    executeMultiResults outcome (fun _ => true) count concurrency =
      (List.range count).map (fun i => settle (outcome i)) := by
  unfold executeMultiResults
  rcases Nat.eq_zero_or_pos count with h0 | hpos
  · subst h0
    rw [executeMultiWaves, dif_neg (by omega)]
    simp
  · rw [executeMultiWaves_flatten_true count count (min concurrency count) 0 outcome
      (fun _ => true) (by omega) (by omega) (fun _ => rfl)]
    rw [Nat.sub_zero, List.range_eq_range']

/-- Results of a run whose stop flag is observed false from the K-th wave
check on: one settled entry per actually started session. -/
theorem executeMultiResults_stop (outcome : Nat → Except String SessResult)
    (count concurrency K : Nat) (hco : 0 < concurrency) :
    executeMultiResults outcome (fun k => decide (k < K)) count concurrency =
      (List.range (min (K * min concurrency count) count)).map
        (fun i => settle (outcome i)) := by
  unfold executeMultiResults
  rcases Nat.eq_zero_or_pos count with h0 | hpos
  · subst h0
    rw [executeMultiWaves, dif_neg (by omega)]
    simp
  · rw [executeMultiWaves_flatten_stop K count (min concurrency count) 0 outcome
      (fun k => decide (k < K)) (by omega) (fun k => by simp)]
    rw [Nat.sub_zero, List.range_eq_range']

/-- C4: the scheduler executes sessions in successive waves whose sizes are
min(concurrency, remaining) — the loop refines the spec-level wave list —
and the wave join collects exactly one settled result per session whatever
the individual outcomes are, so a full run has Summary.total = totalCount;
concretely, totalCount 10 with concurrency 3 yields waves [3, 3, 3, 1]. -/
theorem c4_wave_scheduler :
    (∀ (outcome : Nat → Except String SessResult) (count concurrency : Nat),
      0 < concurrency →
      (executeMultiWaves outcome (fun _ => true) count (min concurrency count) 0).map
          List.length = specWaveSizes count concurrency ∧
      (executeMultiResults outcome (fun _ => true) count concurrency).length = count ∧
      (createSummary (executeMultiResults outcome (fun _ => true) count concurrency)).total
        = count) ∧
    specWaveSizes 10 3 = [3, 3, 3, 1] := by
  constructor
  · intro outcome count concurrency hco
    have hsz := executeMultiWaves_sizes count count concurrency 0 outcome
      (fun _ => true) (by omega) hco (fun _ => rfl)
    rw [Nat.sub_zero] at hsz
    have hlen : (executeMultiResults outcome (fun _ => true) count concurrency).length
        = count := by
      rw [executeMultiResults_true outcome count concurrency hco]
      simp
    exact ⟨hsz, hlen, by rw [createSummary_total, hlen]⟩
  · simp [specWaveSizes]

/-- Witness for c4_wave_scheduler at totalCount 10, concurrency 3. -/
theorem c4_wave_scheduler_witness :
    0 < 3 ∧
    ((executeMultiWaves (fun _ => Except.ok { success := true, totalTime := 100, errMsg := none })
        (fun _ => true) 10 (min 3 10) 0).map List.length = specWaveSizes 10 3 ∧
     (executeMultiResults (fun _ => Except.ok { success := true, totalTime := 100, errMsg := none })
        (fun _ => true) 10 3).length = 10 ∧
     (createSummary (executeMultiResults
        (fun _ => Except.ok { success := true, totalTime := 100, errMsg := none })
        (fun _ => true) 10 3)).total = 10) :=
  ⟨by decide,
   c4_wave_scheduler.1 (fun _ => Except.ok { success := true, totalTime := 100, errMsg := none })
     10 3 (by decide)⟩

/-- C6: failure isolation inside and across waves.  The collected results
are position-wise the settled outcome of each session alone: a rejected
session is recorded as a failed result carrying its error message, and the
entry of any other session is independent of it. -/
theorem c6_failure_isolation :
    ∀ (outcome : Nat → Except String SessResult) (count concurrency : Nat),
      0 < concurrency →
      executeMultiResults outcome (fun _ => true) count concurrency =
        (List.range count).map (fun i => settle (outcome i)) ∧
      (∀ e, settle (Except.error e) =
        { success := false, totalTime := 0, errMsg := some e }) ∧
      (∀ (outcome2 : Nat → Except String SessResult) (j i : Nat),
        (∀ k, k ≠ j → outcome2 k = outcome k) → i ≠ j → i < count →
        (executeMultiResults outcome2 (fun _ => true) count concurrency)[i]? =
          some (settle (outcome i))) := by
  intro outcome count concurrency hco
  refine ⟨executeMultiResults_true outcome count concurrency hco,
    fun e => rfl, fun outcome2 j i hagree hij hi => ?_⟩
  rw [executeMultiResults_true outcome2 count concurrency hco]
  rw [List.getElem?_map, List.getElem?_range hi]
  simp [hagree i hij]

/-- Witness for c6_failure_isolation: three sessions, concurrency two, the
second session rejected. -/
theorem c6_failure_isolation_witness :
    0 < 2 ∧
    executeMultiResults
        (fun i => if i = 1 then Except.error "boom"
          else Except.ok { success := true, totalTime := 50, errMsg := none })
        (fun _ => true) 3 2 =
      (List.range 3).map (fun i => settle
        (if i = 1 then Except.error "boom"
          else Except.ok { success := true, totalTime := 50, errMsg := none })) :=
  ⟨by decide,
   (c6_failure_isolation
     (fun i => if i = 1 then Except.error "boom"
       else Except.ok { success := true, totalTime := 50, errMsg := none })
     3 2 (by decide)).1⟩

/-- C7: the cooperative stop flag is read only at the check before each
wave.  When the flag is observed true at exactly the first K checks, the
results hold every session of the K started waves — the in-flight wave is
joined, never cancelled — no later session is started, and Summary.total
counts the sessions actually started, which is below the requested
totalCount whenever the stop arrived before the last wave. -/
theorem c7_cooperative_stop :
    ∀ (outcome : Nat → Except String SessResult) (count concurrency K : Nat),
      0 < concurrency →
      executeMultiResults outcome (fun k => decide (k < K)) count concurrency =
        (List.range (min (K * min concurrency count) count)).map
          (fun i => settle (outcome i)) ∧
      (createSummary (executeMultiResults outcome (fun k => decide (k < K))
          count concurrency)).total = min (K * min concurrency count) count ∧
      (K * min concurrency count < count →
        (createSummary (executeMultiResults outcome (fun k => decide (k < K))
          count concurrency)).total < count) := by
  intro outcome count concurrency K hco
  have h := executeMultiResults_stop outcome count concurrency K hco
  have htot : (createSummary (executeMultiResults outcome (fun k => decide (k < K))
      count concurrency)).total = min (K * min concurrency count) count := by
    rw [createSummary_total, h]
    simp
  refine ⟨h, htot, fun hlt => ?_⟩
  rw [htot]
  omega

/-- Witness for c7_cooperative_stop: ten sessions, concurrency three, stop
observed before the third wave check: six sessions started. -/
theorem c7_cooperative_stop_witness :
    0 < 3 ∧
    (createSummary (executeMultiResults
        (fun _ => Except.ok { success := true, totalTime := 70, errMsg := none })
        (fun k => decide (k < 2)) 10 3)).total = min (2 * min 3 10) 10 :=
  ⟨by decide,
   (c7_cooperative_stop
     (fun _ => Except.ok { success := true, totalTime := 70, errMsg := none })
     10 3 2 (by decide)).2.1⟩

/-! ## C5 and C9: queue-wait state machine -/

/-- A not-waiting detection on the first check returns success at once,
with no sleep and no observation. -/
theorem waitForCompletion_immediate (isWaiting : Nat → Bool)
    (info : Nat → Nat × Nat) (maxWaitTime : Nat) (hpos : 0 < maxWaitTime)
    (h0 : isWaiting 0 = false) :
    waitForCompletion isWaiting info maxWaitTime =
      { completed := true, elapsed := 0, polls := 1,
        monitorObs := [], loggerObs := [] } := by
  unfold waitForCompletion
  rw [waitForCompletionLoop, dif_pos hpos, if_pos h0]

/-- Timeout behavior of the waiting loop under a detector that always
reports waiting: the loop returns false, and the elapsed time reaches
maxWaitTime overrunning it by less than one poll interval. -/
theorem waitForCompletionLoop_timeout :
    ∀ (fuel : Nat) (isWaiting : Nat → Bool) (info : Nat → Nat × Nat)
      (maxWaitTime elapsed pollIdx : Nat) (lastInfo : Option (Nat × Nat))
      (logAcc : List (Nat × Nat)),
      maxWaitTime - elapsed ≤ fuel → (∀ n, isWaiting n = true) →
      (waitForCompletionLoop isWaiting info maxWaitTime elapsed pollIdx lastInfo
        logAcc).completed = false ∧
      (maxWaitTime ≤ elapsed →
        (waitForCompletionLoop isWaiting info maxWaitTime elapsed pollIdx lastInfo
          logAcc).elapsed = elapsed) ∧
      (elapsed < maxWaitTime →
        maxWaitTime ≤ (waitForCompletionLoop isWaiting info maxWaitTime elapsed
          pollIdx lastInfo logAcc).elapsed ∧
        (waitForCompletionLoop isWaiting info maxWaitTime elapsed pollIdx lastInfo
          logAcc).elapsed < maxWaitTime + 30000) := by
  intro fuel
  induction fuel with
  | zero =>
      intro isWaiting info maxWaitTime elapsed pollIdx lastInfo logAcc hf hw
      have hnlt : ¬ elapsed < maxWaitTime := by omega
      rw [waitForCompletionLoop, dif_neg hnlt]
      exact ⟨rfl, fun _ => rfl, fun h => absurd h hnlt⟩
  | succ n ih =>
      intro isWaiting info maxWaitTime elapsed pollIdx lastInfo logAcc hf hw
      by_cases hlt : elapsed < maxWaitTime
      · rw [waitForCompletionLoop, dif_pos hlt]
        rw [hw pollIdx]
        simp only [Bool.true_eq_false, if_false]
        have hwbound : (0 < (if 0 < (info pollIdx).2 then
            min ((info pollIdx).2 * 1000) 30000 else 5000)) ∧
            (if 0 < (info pollIdx).2 then
              min ((info pollIdx).2 * 1000) 30000 else 5000) ≤ 30000 := by
          split <;> omega
        obtain ⟨hA, hB, hC⟩ := ih isWaiting info maxWaitTime
          (elapsed + (if 0 < (info pollIdx).2 then
            min ((info pollIdx).2 * 1000) 30000 else 5000))
          (pollIdx + 1) (some (info pollIdx))
          (if some (info pollIdx) ≠ lastInfo then logAcc ++ [info pollIdx] else logAcc)
          (by omega) hw
        refine ⟨hA, fun hge => absurd hlt (by omega), fun _ => ?_⟩
        by_cases h2 : elapsed + (if 0 < (info pollIdx).2 then
            min ((info pollIdx).2 * 1000) 30000 else 5000) < maxWaitTime
        · exact hC h2
        · rw [hB (by omega)]
          omega
      · rw [waitForCompletionLoop, dif_neg hlt]
        exact ⟨rfl, fun _ => rfl, fun h => absurd h hlt⟩

/-- C5: a first-check not-waiting detection makes waitForCompletion return
success immediately with no sleep; an always-waiting detection makes it
return false once maxWaitTime has elapsed, overrun by less than one poll
interval (at most 30000 ms); the caller converts the false return into a
thrown waiting-page error that the flow-level catch records as a failed
session result instead of crashing. -/
theorem c5_wait_timeout :
    ∀ (isWaiting : Nat → Bool) (info : Nat → Nat × Nat) (maxWaitTime : Nat),
      (0 < maxWaitTime → isWaiting 0 = false →
        waitForCompletion isWaiting info maxWaitTime =
          { completed := true, elapsed := 0, polls := 1,
            monitorObs := [], loggerObs := [] }) ∧
      ((∀ n, isWaiting n = true) →
        (waitForCompletion isWaiting info maxWaitTime).completed = false ∧
        maxWaitTime ≤ (waitForCompletion isWaiting info maxWaitTime).elapsed ∧
        (waitForCompletion isWaiting info maxWaitTime).elapsed <
          maxWaitTime + 30000) ∧
      (∀ m, executeFullFlow (Except.error m) =
        { success := false, errors := [("flow-execution", m)] }) ∧
      handleWaitingPageGate false =
        Except.error "Failed to pass through waiting page" := by
  intro isWaiting info maxWaitTime
  refine ⟨waitForCompletion_immediate isWaiting info maxWaitTime,
    fun hw => ?_, fun m => rfl, rfl⟩
  unfold waitForCompletion
  obtain ⟨hA, hB, hC⟩ := waitForCompletionLoop_timeout maxWaitTime isWaiting info
    maxWaitTime 0 0 none [] (by omega) hw
  rcases Nat.eq_zero_or_pos maxWaitTime with h0 | hpos
  · subst h0
    exact ⟨hA, by rw [hB (by omega)], by rw [hB (by omega)]; omega⟩
  · obtain ⟨h1, h2⟩ := hC hpos
    exact ⟨hA, h1, h2⟩

/-- Witness for c5_wait_timeout at the default five-minute ceiling. -/
theorem c5_wait_timeout_witness :
    (0 < 300000 ∧ (fun _ : Nat => false) 0 = false ∧
      waitForCompletion (fun _ => false) (fun _ => (0, 0)) 300000 =
        { completed := true, elapsed := 0, polls := 1,
          monitorObs := [], loggerObs := [] }) ∧
    ((waitForCompletion (fun _ => true) (fun _ => (0, 0)) 300000).completed = false ∧
      300000 ≤ (waitForCompletion (fun _ => true) (fun _ => (0, 0)) 300000).elapsed ∧
      (waitForCompletion (fun _ => true) (fun _ => (0, 0)) 300000).elapsed <
        300000 + 30000) :=
  ⟨⟨by decide, rfl,
    (c5_wait_timeout (fun _ => false) (fun _ => (0, 0)) 300000).1 (by decide) rfl⟩,
   (c5_wait_timeout (fun _ => true) (fun _ => (0, 0)) 300000).2.1 (fun _ => rfl)⟩

/-- The waiting loop never produces a monitor observation: no call site
hands the ConcurrentMonitor to the WaitingPage, and the loop body only
writes to the session logger. -/
theorem waitForCompletionLoop_monitorObs :
    ∀ (fuel : Nat) (isWaiting : Nat → Bool) (info : Nat → Nat × Nat)
      (maxWaitTime elapsed pollIdx : Nat) (lastInfo : Option (Nat × Nat))
      (logAcc : List (Nat × Nat)),
      maxWaitTime - elapsed ≤ fuel →
      (waitForCompletionLoop isWaiting info maxWaitTime elapsed pollIdx lastInfo
        logAcc).monitorObs = [] := by
  intro fuel
  induction fuel with
  | zero =>
      intro isWaiting info maxWaitTime elapsed pollIdx lastInfo logAcc hf
      rw [waitForCompletionLoop, dif_neg (by omega)]
  | succ n ih =>
      intro isWaiting info maxWaitTime elapsed pollIdx lastInfo logAcc hf
      by_cases hlt : elapsed < maxWaitTime
      · rw [waitForCompletionLoop, dif_pos hlt]
        by_cases hw0 : isWaiting pollIdx = false
        · rw [if_pos hw0]
        · rw [if_neg hw0]
          exact ih isWaiting info maxWaitTime _ (pollIdx + 1) (some (info pollIdx)) _
            (by
              have : (0 < (if 0 < (info pollIdx).2 then
                  min ((info pollIdx).2 * 1000) 30000 else 5000)) := by
                split <;> omega
              omega)
      · rw [waitForCompletionLoop, dif_neg hlt]

/-- The accumulated logger observations are a prefix of the final ones. -/
theorem waitForCompletionLoop_loggerObs_prefix :
    ∀ (fuel : Nat) (isWaiting : Nat → Bool) (info : Nat → Nat × Nat)
      (maxWaitTime elapsed pollIdx : Nat) (lastInfo : Option (Nat × Nat))
      (logAcc : List (Nat × Nat)),
      maxWaitTime - elapsed ≤ fuel →
      ∃ tail, (waitForCompletionLoop isWaiting info maxWaitTime elapsed pollIdx
        lastInfo logAcc).loggerObs = logAcc ++ tail := by
  intro fuel
  induction fuel with
  | zero =>
      intro isWaiting info maxWaitTime elapsed pollIdx lastInfo logAcc hf
      rw [waitForCompletionLoop, dif_neg (by omega)]
      exact ⟨[], by simp⟩
  | succ n ih =>
      intro isWaiting info maxWaitTime elapsed pollIdx lastInfo logAcc hf
      by_cases hlt : elapsed < maxWaitTime
      · rw [waitForCompletionLoop, dif_pos hlt]
        by_cases hw0 : isWaiting pollIdx = false
        · rw [if_pos hw0]
          exact ⟨[], by simp⟩
        · rw [if_neg hw0]
          dsimp only
          have hwpos : (0 < (if 0 < (info pollIdx).2 then
              min ((info pollIdx).2 * 1000) 30000 else 5000)) := by
            split <;> omega
          by_cases hchg : some (info pollIdx) ≠ lastInfo
          · rw [if_pos hchg]
            obtain ⟨tail, htail⟩ := ih isWaiting info maxWaitTime
              (elapsed + (if 0 < (info pollIdx).2 then
                min ((info pollIdx).2 * 1000) 30000 else 5000))
              (pollIdx + 1) (some (info pollIdx)) (logAcc ++ [info pollIdx])
              (by omega)
            exact ⟨[info pollIdx] ++ tail, by rw [htail, List.append_assoc]⟩
          · rw [if_neg hchg]
            obtain ⟨tail, htail⟩ := ih isWaiting info maxWaitTime
              (elapsed + (if 0 < (info pollIdx).2 then
                min ((info pollIdx).2 * 1000) 30000 else 5000))
              (pollIdx + 1) (some (info pollIdx)) logAcc (by omega)
            exact ⟨tail, htail⟩
      · rw [waitForCompletionLoop, dif_neg hlt]
        exact ⟨[], by simp⟩

/-- C9 counterexample: a run that stays in the Waiting state for two polls
delivers no observation at all to the Monitor, against the claim that one
is emitted per poll. -/
theorem c9_counterexample :
    (waitForCompletion (fun _ => true) (fun _ => (3, 10)) 20000).polls = 2 ∧
    (waitForCompletion (fun _ => true) (fun _ => (3, 10)) 20000).monitorObs = [] := by
  constructor <;> simp [waitForCompletion, waitForCompletionLoop]

/-- C9 amended: while a session is in the Waiting state the handler sends
nothing to the Monitor — the observation stream delivered to the
ConcurrentMonitor is empty for every run — and instead writes the queue
position and estimated wait to the session logger, starting with the info
of the first waiting poll. -/
theorem c9_logger_not_monitor :
    ∀ (isWaiting : Nat → Bool) (info : Nat → Nat × Nat) (maxWaitTime : Nat),
      (waitForCompletion isWaiting info maxWaitTime).monitorObs = [] ∧
      (0 < maxWaitTime → isWaiting 0 = true →
        (waitForCompletion isWaiting info maxWaitTime).loggerObs.head? =
          some (info 0)) := by
  intro isWaiting info maxWaitTime
  constructor
  · exact waitForCompletionLoop_monitorObs maxWaitTime isWaiting info maxWaitTime
      0 0 none [] (by omega)
  · intro hpos h0
    unfold waitForCompletion
    rw [waitForCompletionLoop, dif_pos hpos, if_neg (by simp [h0])]
    dsimp only
    rw [if_pos (show some (info 0) ≠ none by simp)]
    have hwpos : (0 < (if 0 < (info 0).2 then
        min ((info 0).2 * 1000) 30000 else 5000)) := by
      split <;> omega
    obtain ⟨tail, htail⟩ := waitForCompletionLoop_loggerObs_prefix maxWaitTime
      isWaiting info maxWaitTime
      (0 + (if 0 < (info 0).2 then min ((info 0).2 * 1000) 30000 else 5000))
      1 (some (info 0)) ([] ++ [info 0]) (by omega)
    rw [htail]
    simp

/-- Witness for c9_logger_not_monitor on an always-waiting run. -/
theorem c9_logger_not_monitor_witness :
    (waitForCompletion (fun _ => true) (fun _ => (7, 2)) 10000).monitorObs = [] ∧
    (0 < 10000 ∧
      (waitForCompletion (fun _ => true) (fun _ => (7, 2)) 10000).loggerObs.head? =
        some ((fun _ : Nat => ((7 : Nat), (2 : Nat))) 0)) :=
  ⟨(c9_logger_not_monitor (fun _ => true) (fun _ => (7, 2)) 10000).1,
   by decide,
   (c9_logger_not_monitor (fun _ => true) (fun _ => (7, 2)) 10000).2 (by decide) rfl⟩

/-! ## C8 and C10: monitor invariants -/

/-- Presence in a map after a set, as a disjunction. -/
theorem mGet_isSome_mSet {α : Type} (l : List (String × α)) (k key : String)
    (v : α) :
    (mGet (mSet l k v) key).isSome = true ↔
      k = key ∨ (mGet l key).isSome = true := by
  rw [mGet_mSet]
  by_cases h : k = key <;> simp [h]

/-- Each event changes stats.total by one exactly on a register event. -/
theorem monitorStep_total (s : MonitorState) (e : MEvent) :
    (monitorStep s e).stats.total =
      s.stats.total +
        (match e with | MEvent.register _ => (1 : Int) | _ => 0) := by
  cases e with
  | register id => simp [monitorStep, registerSession]
  | start id =>
      cases hm : mGet s.sessions id <;> simp [monitorStep, startSession, hm]
  | updateStep id step =>
      cases hm : mGet s.sessions id <;> simp [monitorStep, updateSessionStep, hm]
  | waitingPage id w q =>
      cases hm : mGet s.sessions id <;> simp [monitorStep, recordWaitingPage, hm]
  | waitingPassed id =>
      cases hm : mGet s.sessions id <;>
        simp [monitorStep, recordWaitingPagePassed, hm] <;> split <;> rfl
  | complete id b =>
      cases hm : mGet s.sessions id <;> simp [monitorStep, completeSession, hm]
  | errorEvent id st m =>
      cases hm : mGet s.sessions id <;> simp [monitorStep, recordError, hm]

/-- Total after a trace: the number of register events. -/
theorem monitor_total_aux :
    ∀ (events : List MEvent) (s : MonitorState),
      (events.foldl monitorStep s).stats.total =
        s.stats.total + ((registerIds events).length : Int) := by
  intro events
  induction events with
  | nil => intro s; simp [registerIds]
  | cons e es ih =>
      intro s
      rw [List.foldl_cons, ih, monitorStep_total]
      cases e <;> simp [registerIds] <;> omega

/-- Presence of a session id after a trace. -/
theorem monitor_presence_aux :
    ∀ (events : List MEvent) (s : MonitorState) (id : String),
      (mGet (events.foldl monitorStep s).sessions id).isSome = true ↔
        ((mGet s.sessions id).isSome = true ∨ id ∈ registerIds events) := by
  intro events
  induction events with
  | nil => intro s id; simp [registerIds]
  | cons e es ih =>
      intro s id
      rw [List.foldl_cons, ih]
      have hstep : (mGet (monitorStep s e).sessions id).isSome = true ↔
          ((mGet s.sessions id).isSome = true ∨
            (match e with | MEvent.register i => i = id | _ => False)) := by
        cases e with
        | register i =>
            simp [monitorStep, registerSession, mGet_isSome_mSet]
            tauto
        | start i =>
            cases hm : mGet s.sessions i <;>
              simp [monitorStep, startSession, hm, mGet_isSome_mSet]
            intro hi
            subst hi
            simp [hm]
        | updateStep i step =>
            cases hm : mGet s.sessions i <;>
              simp [monitorStep, updateSessionStep, hm, mGet_isSome_mSet]
            intro hi
            subst hi
            simp [hm]
        | waitingPage i w q =>
            cases hm : mGet s.sessions i <;>
              simp [monitorStep, recordWaitingPage, hm, mGet_isSome_mSet]
            intro hi
            subst hi
            simp [hm]
        | waitingPassed i =>
            cases hm : mGet s.sessions i <;>
              simp [monitorStep, recordWaitingPagePassed, hm]
            split <;> simp
        | complete i b =>
            cases hm : mGet s.sessions i <;>
              simp [monitorStep, completeSession, hm, mGet_isSome_mSet]
            intro hi
            subst hi
            simp [hm]
        | errorEvent i st m =>
            cases hm : mGet s.sessions i <;>
              simp [monitorStep, recordError, hm, mGet_isSome_mSet]
            intro hi
            subst hi
            simp [hm]
      rw [hstep]
      cases e <;> simp [registerIds] <;> tauto

/-- The running counter never becomes negative: the only decrement is
clamped with max 0. -/
theorem monitor_running_nonneg_aux :
    ∀ (events : List MEvent) (s : MonitorState),
      0 ≤ s.stats.running → 0 ≤ (events.foldl monitorStep s).stats.running := by
  intro events
  induction events with
  | nil => intro s hs; simpa using hs
  | cons e es ih =>
      intro s hs
      rw [List.foldl_cons]
      refine ih _ ?_
      cases e with
      | register id => simpa [monitorStep, registerSession] using hs
      | start id =>
          cases hm : mGet s.sessions id <;>
            simp [monitorStep, startSession, hm] <;> omega
      | updateStep id step =>
          cases hm : mGet s.sessions id <;>
            simp [monitorStep, updateSessionStep, hm] <;> omega
      | waitingPage id w q =>
          cases hm : mGet s.sessions id <;>
            simp [monitorStep, recordWaitingPage, hm] <;> omega
      | waitingPassed id =>
          cases hm : mGet s.sessions id
          · simpa [monitorStep, recordWaitingPagePassed, hm] using hs
          · simp only [monitorStep, recordWaitingPagePassed, hm]
            split
            · simpa using hs
            · exact hs
      | complete id b =>
          cases hm : mGet s.sessions id <;>
            simp [monitorStep, completeSession, hm] <;> omega
      | errorEvent id st m =>
          cases hm : mGet s.sessions id <;>
            simp [monitorStep, recordError, hm] <;> omega

/-- Bound on completed + failed: each effective completeSession event
consumes a distinct registered session id. -/
theorem monitor_cf_bound :
    ∀ events : List MEvent, (completeIds events).Nodup →
      (monitorRun events).stats.completed + (monitorRun events).stats.failed ≤
        (((completeIds events).toFinset ∩ (registerIds events).toFinset).card : Int) := by
  intro events
  induction events using List.reverseRecOn with
  | nil => intro _; simp [monitorRun, monitorInit, monitorInitStats]
  | append_singleton es e ih =>
      intro hd
      have hdes : (completeIds es).Nodup := by
        have : completeIds (es ++ [e]) = completeIds es ++ completeIds [e] := by
          simp [completeIds]
        rw [this] at hd
        exact hd.of_append_left
      have hbound := ih hdes
      have hrun : monitorRun (es ++ [e]) = monitorStep (monitorRun es) e := by
        simp [monitorRun]
      rw [hrun]
      cases e with
      | register id =>
          have hC : completeIds (es ++ [MEvent.register id]) = completeIds es := by
            simp [completeIds]
          have hR : registerIds (es ++ [MEvent.register id]) =
              registerIds es ++ [id] := by
            simp [registerIds]
          have hmono : ((completeIds es).toFinset ∩ (registerIds es).toFinset).card ≤
              ((completeIds es).toFinset ∩
                ((registerIds es).toFinset ∪ {id})).card := by
            exact Finset.card_le_card
              (Finset.inter_subset_inter (Finset.Subset.refl _)
                Finset.subset_union_left)
          rw [hC, hR]
          simp only [monitorStep, registerSession, List.toFinset_append,
            List.toFinset_cons, List.toFinset_nil]
          have : (monitorRun es).stats.completed + (monitorRun es).stats.failed ≤
              (((completeIds es).toFinset ∩
                ((registerIds es).toFinset ∪ {id})).card : Int) := by
            refine le_trans hbound ?_
            exact_mod_cast hmono
          simpa using this
      | start id =>
          have hC : completeIds (es ++ [MEvent.start id]) = completeIds es := by
            simp [completeIds]
          have hR : registerIds (es ++ [MEvent.start id]) = registerIds es := by
            simp [registerIds]
          rw [hC, hR]
          cases hm : mGet (monitorRun es).sessions id <;>
            simpa [monitorStep, startSession, hm] using hbound
      | updateStep id step =>
          have hC : completeIds (es ++ [MEvent.updateStep id step]) =
              completeIds es := by simp [completeIds]
          have hR : registerIds (es ++ [MEvent.updateStep id step]) =
              registerIds es := by simp [registerIds]
          rw [hC, hR]
          cases hm : mGet (monitorRun es).sessions id <;>
            simpa [monitorStep, updateSessionStep, hm] using hbound
      | waitingPage id w q =>
          have hC : completeIds (es ++ [MEvent.waitingPage id w q]) =
              completeIds es := by simp [completeIds]
          have hR : registerIds (es ++ [MEvent.waitingPage id w q]) =
              registerIds es := by simp [registerIds]
          rw [hC, hR]
          cases hm : mGet (monitorRun es).sessions id <;>
            simpa [monitorStep, recordWaitingPage, hm] using hbound
      | waitingPassed id =>
          have hC : completeIds (es ++ [MEvent.waitingPassed id]) =
              completeIds es := by simp [completeIds]
          have hR : registerIds (es ++ [MEvent.waitingPassed id]) =
              registerIds es := by simp [registerIds]
          rw [hC, hR]
          cases hm : mGet (monitorRun es).sessions id
          · simpa [monitorStep, recordWaitingPagePassed, hm] using hbound
          · simp only [monitorStep, recordWaitingPagePassed, hm]
            split <;> simpa using hbound
      | errorEvent id st m =>
          have hC : completeIds (es ++ [MEvent.errorEvent id st m]) =
              completeIds es := by simp [completeIds]
          have hR : registerIds (es ++ [MEvent.errorEvent id st m]) =
              registerIds es := by simp [registerIds]
          rw [hC, hR]
          cases hm : mGet (monitorRun es).sessions id <;>
            simpa [monitorStep, recordError, hm] using hbound
      | complete id b =>
          have hC : completeIds (es ++ [MEvent.complete id b]) =
              completeIds es ++ [id] := by simp [completeIds]
          have hR : registerIds (es ++ [MEvent.complete id b]) =
              registerIds es := by simp [registerIds]
          have hnodup := hd
          rw [hC, List.nodup_append] at hnodup
          have hnotin : id ∉ completeIds es := fun hmem =>
            hnodup.2.2 hmem (by simp)
          rw [hC, hR]
          have hset : (completeIds es ++ [id]).toFinset =
              insert id (completeIds es).toFinset := by
            ext x
            simp [or_comm]
          rw [hset]
          cases hm : mGet (monitorRun es).sessions id with
          | none =>
              simp only [monitorStep, completeSession, hm]
              refine le_trans hbound ?_
              have hmono : ((completeIds es).toFinset ∩
                  (registerIds es).toFinset).card ≤
                  ((insert id (completeIds es).toFinset) ∩
                    (registerIds es).toFinset).card :=
                Finset.card_le_card (Finset.inter_subset_inter
                  (Finset.subset_insert _ _) (Finset.Subset.refl _))
              exact_mod_cast hmono
          | some r =>
              have hsome : (mGet (monitorRun es).sessions id).isSome = true := by
                rw [hm]
                rfl
              rw [monitorRun] at hsome
              have hid : id ∈ registerIds es := by
                rcases (monitor_presence_aux es monitorInit id).mp hsome with h1 | h2
                · simp [monitorInit, mGet] at h1
                · exact h2
              have hidR : id ∈ (registerIds es).toFinset := by
                rw [List.mem_toFinset]
                exact hid
              have hcard : ((insert id (completeIds es).toFinset) ∩
                  (registerIds es).toFinset).card =
                  ((completeIds es).toFinset ∩ (registerIds es).toFinset).card + 1 := by
                rw [Finset.insert_inter_of_mem hidR]
                exact Finset.card_insert_of_not_mem (fun hmem =>
                  hnotin (List.mem_toFinset.mp (Finset.mem_of_mem_inter_left hmem)))
              simp only [monitorStep, completeSession, hm]
              rw [hcard]
              push_cast
              push_cast at hbound
              cases b <;> simp <;> omega

/-- C8 counterexample: a trace that registers one session and completes it
twice drives the counters to completed = 2 with total = 1, so the claimed
invariant completed + failed ≤ total fails for this event sequence
(completeSession increments the counter on every call for a known id). -/
theorem c8_counterexample :
    ¬ ((monitorRun [MEvent.register "s1", MEvent.complete "s1" true,
          MEvent.complete "s1" true]).stats.completed +
        (monitorRun [MEvent.register "s1", MEvent.complete "s1" true,
          MEvent.complete "s1" true]).stats.failed ≤
        (monitorRun [MEvent.register "s1", MEvent.complete "s1" true,
          MEvent.complete "s1" true]).stats.total) := by
  decide

/-- C8 amended: for every sequence of monitor events in which each session
id receives at most one completeSession event, every snapshot satisfies
completed + failed ≤ total and running ≥ 0, where total counts the
registration events of the trace. -/
theorem c8_monitor_invariant :
    ∀ events : List MEvent, (completeIds events).Nodup →
      (monitorRun events).stats.completed + (monitorRun events).stats.failed ≤
        (monitorRun events).stats.total ∧
      0 ≤ (monitorRun events).stats.running ∧
      (monitorRun events).stats.total = ((registerIds events).length : Int) := by
  intro events hd
  have htot : (monitorRun events).stats.total =
      ((registerIds events).length : Int) := by
    rw [monitorRun, monitor_total_aux events monitorInit]
    simp [monitorInit, monitorInitStats]
  refine ⟨?_, ?_, htot⟩
  · refine le_trans (monitor_cf_bound events hd) ?_
    rw [htot]
    have h1 : ((completeIds events).toFinset ∩
        (registerIds events).toFinset).card ≤
        (registerIds events).toFinset.card :=
      Finset.card_le_card Finset.inter_subset_right
    have h2 : (registerIds events).toFinset.card ≤ (registerIds events).length :=
      List.toFinset_card_le _
    exact_mod_cast le_trans h1 h2
  · rw [monitorRun]
    exact monitor_running_nonneg_aux events monitorInit (by
      simp [monitorInit, monitorInitStats])

/-- Witness for c8_monitor_invariant on a three-event trace. -/
theorem c8_monitor_invariant_witness :
    (completeIds [MEvent.register "s1", MEvent.start "s1",
      MEvent.complete "s1" true]).Nodup ∧
    ((monitorRun [MEvent.register "s1", MEvent.start "s1",
        MEvent.complete "s1" true]).stats.completed +
      (monitorRun [MEvent.register "s1", MEvent.start "s1",
        MEvent.complete "s1" true]).stats.failed ≤
      (monitorRun [MEvent.register "s1", MEvent.start "s1",
        MEvent.complete "s1" true]).stats.total ∧
     0 ≤ (monitorRun [MEvent.register "s1", MEvent.start "s1",
        MEvent.complete "s1" true]).stats.running ∧
     (monitorRun [MEvent.register "s1", MEvent.start "s1",
        MEvent.complete "s1" true]).stats.total =
       ((registerIds [MEvent.register "s1", MEvent.start "s1",
         MEvent.complete "s1" true]).length : Int)) :=
  ⟨by decide,
   c8_monitor_invariant [MEvent.register "s1", MEvent.start "s1",
     MEvent.complete "s1" true] (by decide)⟩

/-- C10: every sessionId-taking monitor method is a no-op for an id that
is absent from the session map — the whole monitor state is returned
unchanged and nothing is thrown — and an id that no register event of the
trace mentions is absent from the session map. -/
theorem c10_unregistered_noop :
    (∀ (s : MonitorState) (id : String), mGet s.sessions id = none →
      startSession s id = s ∧
      (∀ step, updateSessionStep s id step = s) ∧
      (∀ w q, recordWaitingPage s id w q = s) ∧
      recordWaitingPagePassed s id = s ∧
      (∀ b, completeSession s id b = s) ∧
      (∀ step msg, recordError s id step msg = s)) ∧
    (∀ (events : List MEvent) (id : String), id ∉ registerIds events →
      mGet (monitorRun events).sessions id = none) := by
  constructor
  · intro s id h
    refine ⟨?_, fun step => ?_, fun w q => ?_, ?_, fun b => ?_, fun step msg => ?_⟩
    · simp [startSession, h]
    · simp [updateSessionStep, h]
    · simp [recordWaitingPage, h]
    · simp [recordWaitingPagePassed, h]
    · simp [completeSession, h]
    · simp [recordError, h]
  · intro events id hreg
    have hp := monitor_presence_aux events monitorInit id
    rw [monitorRun]
    by_contra hne
    have hsome : (mGet (events.foldl monitorStep monitorInit).sessions id).isSome
        = true := by
      cases hx : mGet (events.foldl monitorStep monitorInit).sessions id
      · exact absurd hx hne
      · rfl
    rcases hp.mp hsome with h1 | h2
    · simp [monitorInit, mGet] at h1
    · exact hreg h2

/-- Witness for c10_unregistered_noop: the fresh monitor state and an id
that was never registered. -/
theorem c10_unregistered_noop_witness :
    mGet monitorInit.sessions "ghost" = none ∧
    startSession monitorInit "ghost" = monitorInit ∧
    completeSession monitorInit "ghost" true = monitorInit ∧
    ("ghost" ∉ registerIds [MEvent.register "s1"] ∧
      mGet (monitorRun [MEvent.register "s1"]).sessions "ghost" = none) :=
  ⟨by decide,
   (c10_unregistered_noop.1 monitorInit "ghost" (by decide)).1,
   (c10_unregistered_noop.1 monitorInit "ghost" (by decide)).2.2.2.2.1 true,
   by decide,
   c10_unregistered_noop.2 [MEvent.register "s1"] "ghost" (by decide)⟩

/-! ## C1: single-flight creation guards -/

/-- C1: on the race schedule of two concurrent getOrCreateSharedContext
callers for one key, the browserStarting guard single-flights the
chromium.launch call (one entry in the launch log), but browser.newContext
is started twice for the same key: the contextCreating guard is written
only after the await on startBrowser, so both tasks pass the guard check
before either sets it, and each ends up awaiting its own context creation. -/
theorem c1_shared_context_double_creation :
    (sfRun sfTwoTasks sfRaceSchedule).launchLog = ["browser-0"] ∧
    (sfRun sfTwoTasks sfRaceSchedule).newContextLog = ["browser-0", "browser-0"] ∧
    (sfRun sfTwoTasks sfRaceSchedule).tasks =
      [{ key := "browser-0", pc := TaskPC.awaitCtx 0 },
       { key := "browser-0", pc := TaskPC.awaitCtx 1 }] := by
  refine ⟨rfl, rfl, rfl⟩
